import Mathlib

/-
  Verification development for the cumbiatron repository.

  Shallow embedding of the stepper motor controller
  (src/hardware/stepper.py, class StepperMotorController) and of the
  cart orchestration layer (src/cart/cumbiatron_cart.py, class
  CumbiatronCart).  Python methods that mutate `self` and may raise are
  embedded as functions from an explicit state to a pair of a result
  (ok value or exception) and the post-call state.  Machine integers are
  Nat/Int; the float-valued position is a rational.
-/

namespace Cumbiatron

/-- Result of a Python method call: either a returned value or a raised
exception.  On an exception the post-call state is still reported, since
a Python object keeps every mutation made before the raise. -/
inductive Res (ε : Type) (α : Type) where
  | ok (v : α)
  | exn (e : ε)
deriving DecidableEq

/-- True when the call returned normally. -/
def Res.isOk {ε α : Type} : Res ε α → Bool
  | .ok _ => true
  | .exn _ => false

/-- Exceptions raised by StepperMotorController: the two distinct
ValueError messages of src/hardware/stepper.py. -/
inductive StepperError where
  | invalidMicrostep
  | unachievableFrequency (freq : Nat)
deriving DecidableEq

/-- True when the call raised the unachievable-frequency error. -/
def Res.isUnach {α : Type} : Res StepperError α → Bool
  | .exn (.unachievableFrequency _) => true
  | _ => false

/-- Hardware clock rate, `clock_freq = 125_000_000` in
`_calculate_pwm_parameters`. -/
def clockFreq : Nat := 125000000

/-- The divisor scan of `_calculate_pwm_parameters`: starting at `div`,
with `fuel` candidate divisors left, compute
`wrap = clock_freq // (freq * div)` and accept the first divisor whose
wrap lies in [1, 65535]. -/
def pwmScanFrom (freq div : Nat) : Nat → Option (Nat × Nat)
  | 0 => none
  | fuel + 1 =>
    let wrap := clockFreq / (freq * div)
    if 1 ≤ wrap ∧ wrap ≤ 65535 then some (div, wrap)
    else pwmScanFrom freq (div + 1) fuel

/-- `_calculate_pwm_parameters(freq)`: scan divisors 1..255 ascending and
return the first `(div, wrap)` with `wrap = clock_freq // (freq * div)`
in [1, 65535], or `none` when no divisor works (the caller `_set_speed`
then raises the unachievable-frequency ValueError). -/
def calculate_pwm_parameters (freq : Nat) : Option (Nat × Nat) :=
  pwmScanFrom freq 1 255

/-- A divisor is acceptable for a frequency when the resulting wrap value
lies in [1, 65535]. -/
def divOk (freq d : Nat) : Prop :=
  1 ≤ clockFreq / (freq * d) ∧ clockFreq / (freq * d) ≤ 65535

instance (freq d : Nat) : Decidable (divOk freq d) := by
  unfold divOk; infer_instance

/-- `MICROSTEP_MODES`: the mode-pin levels for each valid microstep
value, exactly the class dictionary of StepperMotorController. -/
def MICROSTEP_MODES (m : Nat) : Option (Nat × Nat × Nat) :=
  if m = 1 then some (0, 0, 0)
  else if m = 2 then some (1, 0, 0)
  else if m = 4 then some (0, 1, 0)
  else if m = 8 then some (1, 1, 0)
  else if m = 16 then some (0, 0, 1)
  else if m = 32 then some (1, 0, 1)
  else none

/-- State of one StepperMotorController object plus the instrumented
pulse output of its PWM unit.  `enableVal` is the level written to the
enable pin (active low: 0 = driver enabled, 1 = disabled).
`pulse_count` is the software counter incremented by the timer callback
`_pulse_counter`.  `stepsEmitted` is a ghost observer counting the step
pulses physically emitted on the step pin: the PWM emits pulses exactly
while its duty cycle is nonzero. -/
structure StepperState where
  position : ℚ
  direction : Int
  dirPin : Bool
  enableVal : Nat
  current_microstep : Nat
  modePins : Nat × Nat × Nat
  pwmFreq : Nat
  pwmDuty : Nat
  timerActive : Bool
  timerFreq : Nat
  pulse_count : Nat
  stepsEmitted : Nat
deriving DecidableEq

/-- The state built by the StepperMotorController constructor: position
0, direction clockwise, full-step mode, PWM duty forced to 0, pulse
counter 0, timer not yet started. -/
def initState : StepperState :=
  { position := 0, direction := 1, dirPin := true, enableVal := 1,
    current_microstep := 1, modePins := (0, 0, 0), pwmFreq := 0,
    pwmDuty := 0, timerActive := false, timerFreq := 0,
    pulse_count := 0, stepsEmitted := 0 }

/-- `set_direction(direction)`: store +1 or -1 and drive the direction
pin high exactly for the positive direction. -/
def set_direction (d : Int) (s : StepperState) : StepperState :=
  let dir : Int := if 0 < d then 1 else -1
  { s with direction := dir, dirPin := decide (0 < dir) }

/-- `enable()`: drive the active-low enable pin to 0. -/
def enable (s : StepperState) : StepperState := { s with enableVal := 0 }

/-- `disable()`: drive the active-low enable pin to 1. -/
def disable (s : StepperState) : StepperState := { s with enableVal := 1 }

/-- `set_microstep_mode(microstep)`: raise the invalid-microstep
ValueError for a value outside the MICROSTEP_MODES table, before any
mutation; otherwise write the mode pins and record the new
resolution. -/
def set_microstep_mode (m : Nat) (s : StepperState) :
    Res StepperError Unit × StepperState :=
  match MICROSTEP_MODES m with
  | none => (.exn .invalidMicrostep, s)
  | some pins =>
      (.ok (), { s with modePins := pins, current_microstep := m })

/-- `_set_speed(steps_per_second)`: adjust the frequency for
microstepping, floor it at 10 Hz, check achievability with
`_calculate_pwm_parameters`, raising the unachievable-frequency
ValueError when no divisor fits (before touching the PWM); on success
program the PWM frequency and a 50 percent duty cycle. -/
def set_speed (sps : Nat) (s : StepperState) :
    Res StepperError Unit × StepperState :=
  let adjusted := max (sps * s.current_microstep) 10
  match calculate_pwm_parameters adjusted with
  | none => (.exn (.unachievableFrequency adjusted), s)
  | some _ => (.ok (), { s with pwmFreq := adjusted, pwmDuty := 32768 })

/-- How a `move_for_time` polling loop ends, and what the hardware did
meanwhile: `cause` is the loop exit path (duration elapsed, limit switch
read 0, or KeyboardInterrupt caught by the except clause); `ticks` is
the number of timer-callback invocations during the loop; `pulses` is
the number of step pulses the PWM emitted during the loop. -/
structure MoveEnv where
  cause : Nat
  ticks : Nat
  pulses : Nat

/-- The shared prelude of both move methods:
`if microstep is not None: self.set_microstep_mode(microstep)`. -/
def microstepPrep (microstep : Option Nat) (s : StepperState) :
    Res StepperError Unit × StepperState :=
  match microstep with
  | none => (.ok (), s)
  | some m => set_microstep_mode m s

/-- `move_for_time(direction, steps_per_second, duration_ms, microstep)`:
optionally change microstep mode, set direction and speed (either may
raise, propagating with the state mutated so far), reset the pulse
counter, start the counting timer at twice the PWM frequency, enable
the driver, run the polling loop (all three exit paths fall into the
same finally block), then in the finally block zero the duty cycle,
deinitialize the timer and disable the driver; finally convert the
pulse count to full steps, advance the position and return the step
count. -/
def move_for_time (env : MoveEnv) (d : Int) (sps : Nat)
    (duration_ms : Nat) (microstep : Option Nat) (s : StepperState) :
    Res StepperError ℚ × StepperState :=
  match microstepPrep microstep s with
  | (.exn e, s1) => (.exn e, s1)
  | (.ok _, s1) =>
    let s2 := set_direction d s1
    match set_speed sps s2 with
    | (.exn e, s3) => (.exn e, s3)
    | (.ok _, s3) =>
      let s4 := { s3 with pulse_count := 0 }
      let s5 := { s4 with timerActive := true, timerFreq := s4.pwmFreq * 2 }
      let s6 := enable s5
      let s7 := { s6 with
        pulse_count := s6.pulse_count + env.ticks,
        stepsEmitted :=
          s6.stepsEmitted + (if s6.pwmDuty ≠ 0 then env.pulses else 0) }
      let s8 := disable { s7 with pwmDuty := 0, timerActive := false }
      let actual : ℚ := (s8.pulse_count : ℚ) / (s8.current_microstep : ℚ)
      (.ok actual,
       { s8 with position := s8.position + (s8.direction : ℚ) * actual })

/-- One iteration of the `move_with_variable_speed` polling loop as seen
from outside: the elapsed time read from the clock, the limit switch
level (1 = not triggered), whether a KeyboardInterrupt hits this
iteration, the timer-callback ticks and the PWM pulses of the 10 ms
sleep that ends the iteration. -/
structure VsObs where
  elapsed : Nat
  limitVal : Nat
  interrupted : Bool
  ticks : Nat
  pulses : Nat

/-- The polling loop of `move_with_variable_speed`: while time remains
and the limit switch reads nonzero, sample the speed profile at the
elapsed time, set the speed (an unachievable sample raises out of the
loop), then sleep 10 ms during which the timer counts and the PWM
emits pulses.  A KeyboardInterrupt is caught by the except clause, so
the loop ends normally. -/
def vsLoop (profile : Nat → Nat → Nat) (duration_ms : Nat) :
    List VsObs → StepperState → Res StepperError Unit × StepperState
  | [], s => (.ok (), s)
  | o :: rest, s =>
    if o.interrupted then (.ok (), s)
    else if o.elapsed < duration_ms ∧ o.limitVal ≠ 0 then
      match set_speed (profile o.elapsed duration_ms) s with
      | (.exn e, s1) => (.exn e, s1)
      | (.ok _, s1) =>
        let s2 := { s1 with
          pulse_count := s1.pulse_count + o.ticks,
          stepsEmitted :=
            s1.stepsEmitted + (if s1.pwmDuty ≠ 0 then o.pulses else 0) }
        vsLoop profile duration_ms rest s2
    else (.ok (), s)

/-- `move_with_variable_speed(direction, speed_profile, duration_ms,
microstep)`: optionally change microstep mode, set direction, reset the
pulse counter, start the counting timer at 1000 Hz, enable the driver,
run the resampling loop; the finally block always zeroes the duty
cycle, deinitializes the timer and disables the driver, after which an
exception from the loop propagates while a normal exit converts the
pulse count to full steps, advances the position and returns it. -/
def move_with_variable_speed (obs : List VsObs) (d : Int)
    (profile : Nat → Nat → Nat) (duration_ms : Nat)
    (microstep : Option Nat) (s : StepperState) :
    Res StepperError ℚ × StepperState :=
  match microstepPrep microstep s with
  | (.exn e, s1) => (.exn e, s1)
  | (.ok _, s1) =>
    let s2 := set_direction d s1
    let s3 := { s2 with pulse_count := 0 }
    let s4 := { s3 with timerActive := true, timerFreq := 1000 }
    let s5 := enable s4
    match vsLoop profile duration_ms obs s5 with
    | (res, s6) =>
      let s7 := disable { s6 with pwmDuty := 0, timerActive := false }
      match res with
      | .exn e => (.exn e, s7)
      | .ok _ =>
        let actual : ℚ :=
          (s7.pulse_count : ℚ) / (s7.current_microstep : ℚ)
        (.ok actual,
         { s7 with position := s7.position + (s7.direction : ℚ) * actual })

/-- Exceptions raised by CumbiatronCart: the invalid-servo-index
ValueError of play_note and release_note, and the generic IndexError of
a plain Python list subscript. -/
inductive CartError where
  | invalidServoIndex
  | indexError
deriving DecidableEq

/-- A command sent to an external servo: set_angle with an angle, or
center (set_angle(90) via Servo.center). -/
inductive Command where
  | setAngle (idx : Nat) (angle : Int)
  | center (idx : Nat)
deriving DecidableEq

/-- `servo_orientations = [1, 1, 1, 1, -1, -1, -1]`. -/
def servo_orientations : List Int := [1, 1, 1, 1, -1, -1, -1]

/-- `servo_key_types = ['w', 'w', 'w', 'w', 'b', 'b', 'b']`. -/
def servo_key_types : List Char := ['w', 'w', 'w', 'w', 'b', 'b', 'b']

/-- State of one CumbiatronCart object together with the physical
carriage.  `phys` is the physical carriage position in single-step
units, measured from the home switch trigger edge; `axisPos` is the
position counter kept by the stepper object and reset by
`reset_position`; `estopped` records that `emergency_stop` has forced
the stepper off. -/
structure CartState where
  servo_states : List Int
  is_homing : Bool
  switch_activated : Bool
  estopped : Bool
  phys : Int
  axisPos : Int
deriving DecidableEq

/-- The state built by the CumbiatronCart constructor: seven servos all
centered, homing guard clear, cancellation event clear. -/
def initCart : CartState :=
  { servo_states := List.replicate 7 0, is_homing := false,
    switch_activated := false, estopped := false, phys := 0, axisPos := 0 }

/-- Modelled from the spec: `StepperMotor.emergency_stop` is not under
src (the cart imports StepperMotor, while src only ships
StepperMotorController); per the spec it forces the StepperAxis into
the disabled state synchronously. -/
def emergency_stop (c : CartState) : CartState := { c with estopped := true }

/-- `switch_handler(pin)`: on any edge, when the homing guard is clear
and the pin reads 0 (active low, triggered), stop the stepper and set
the cancellation event; otherwise do nothing. -/
def switch_handler (pinVal : Nat) (c : CartState) : CartState :=
  if c.is_homing = false ∧ pinVal = 0 then
    { emergency_stop c with switch_activated := true }
  else c

/-- Modelled from the spec: the home limit switch is wired idle-high
and reads 0 (triggered) exactly when the carriage is at or past the
switch position, taken as the origin of physical coordinates. -/
def home_switch_value (p : Int) : Nat := if p ≤ 0 then 0 else 1

/-- Modelled from the spec: `StepperMotor.step_left` is not under src;
it emits a single pulse moving the carriage one step toward home. -/
def step_left (p : Int) : Int := p - 1

/-- Modelled from the spec: `StepperMotor.step_right` is not under src;
it emits a single pulse moving the carriage one step away from home. -/
def step_right (p : Int) : Int := p + 1

/-- First homing loop: `while self.home_switch.value() == 1:
self.stepper.step_left()`. -/
def seekHome (p : Int) : Int :=
  if h : home_switch_value p = 1 then seekHome (step_left p) else p
termination_by p.toNat
decreasing_by
  simp only [home_switch_value, step_left] at *
  split at h <;> omega

/-- Second homing loop: `while self.home_switch.value() == 0:
self.stepper.step_right()`. -/
def clearHome (p : Int) : Int :=
  if h : home_switch_value p = 0 then clearHome (step_right p) else p
termination_by (1 - p).toNat
decreasing_by
  simp only [home_switch_value, step_right] at *
  split at h <;> omega

/-- Third homing loop, textually identical to the first: step back
toward home until the switch triggers again. -/
def reapproachHome (p : Int) : Int :=
  if h : home_switch_value p = 1 then reapproachHome (step_left p) else p
termination_by p.toNat
decreasing_by
  simp only [home_switch_value, step_left] at *
  split at h <;> omega

/-- `home()`: set the homing guard, clear the cancellation event, run
the three single-pulse loops (seek home, clear the switch, re-approach
it), then `reset_position` (modelled from the spec: it zeroes the
stepper position counter, defining the physical reference) and clear
the homing guard. -/
def home (c : CartState) : CartState :=
  let c0 := { c with is_homing := true, switch_activated := false }
  let p1 := seekHome c0.phys
  let p2 := clearHome p1
  let p3 := reapproachHome p2
  { c0 with phys := p3, axisPos := 0, is_homing := false }

/-- The direction decision inside play_note: the target engagement and
the commanded angle, from the fixed orientation sign of the actuator
and the requested side. -/
def playTarget (idx : Nat) (is_left_note : Bool) : Int × Int :=
  if (is_left_note = true ∧ servo_orientations.getD idx 0 = 1) ∨
     (is_left_note = false ∧ servo_orientations.getD idx 0 = -1) then
    (-1, -45)
  else (1, 45)

/-- `play_note(servo_index, is_left_note)`: validate the index against
the seven servos, read the orientation and current engagement, compute
the target engagement and angle from the orientation sign and requested
side, and only when the current engagement differs command
`set_angle(angle)` on the servo and record the target.  The returned
list holds the servo commands issued by the call. -/
def play_note (i : Int) (is_left_note : Bool) (c : CartState) :
    Res CartError Unit × CartState × List Command :=
  if i < 0 ∨ 7 ≤ i then (.exn .invalidServoIndex, c, [])
  else
    let idx := i.toNat
    let current := c.servo_states.getD idx 0
    let ta := playTarget idx is_left_note
    if current ≠ ta.1 then
      (.ok (), { c with servo_states := c.servo_states.set idx ta.1 },
       [Command.setAngle idx ta.2])
    else (.ok (), c, [])

/-- `release_note(servo_index)`: validate the index, and when the servo
is not centered command `center()` and record the centered state. -/
def release_note (i : Int) (c : CartState) :
    Res CartError Unit × CartState × List Command :=
  if i < 0 ∨ 7 ≤ i then (.exn .invalidServoIndex, c, [])
  else
    let idx := i.toNat
    if c.servo_states.getD idx 0 ≠ 0 then
      (.ok (), { c with servo_states := c.servo_states.set idx 0 },
       [Command.center idx])
    else (.ok (), c, [])

/-- `get_servo_key_type(servo_index)`: a bare Python list subscript
`self.servo_key_types[servo_index]` with Python indexing semantics: a
negative index within the length addresses from the end, anything
further out raises the generic IndexError. -/
def get_servo_key_type (i : Int) : Res CartError Char :=
  if 0 ≤ i ∧ i < (servo_key_types.length : Int) then
    .ok (servo_key_types.getD i.toNat 'w')
  else if -(servo_key_types.length : Int) ≤ i ∧ i < 0 then
    .ok (servo_key_types.getD ((servo_key_types.length : Int) + i).toNat 'w')
  else .exn .indexError

/-- A state captured in the middle of a move: the polling loop of
move_for_time keeps the PWM duty at 32768, the counting timer running
and the driver enabled (the state between enable() and the finally
block of a 3200 Hz full-step move). -/
def midMoveState : StepperState :=
  { initState with
      pwmFreq := 3200, pwmDuty := 32768, timerActive := true,
      timerFreq := 6400, enableVal := 0 }

/-- Characterization of the divisor scan: it returns the smallest
acceptable divisor in the scanned window together with its wrap value,
or none when the window has no acceptable divisor. -/
theorem pwmScanFrom_spec (freq : Nat) :
    ∀ fuel div : Nat,
      (match pwmScanFrom freq div fuel with
       | some (d, w) =>
           div ≤ d ∧ d < div + fuel ∧ w = clockFreq / (freq * d) ∧
           1 ≤ w ∧ w ≤ 65535 ∧ ∀ e, div ≤ e → e < d → ¬ divOk freq e
       | none => ∀ e, div ≤ e → e < div + fuel → ¬ divOk freq e) := by
  intro fuel
  induction fuel with
  | zero => intro div; simp [pwmScanFrom]; omega
  | succ n ih =>
    intro div
    rw [pwmScanFrom]
    by_cases h : 1 ≤ clockFreq / (freq * div) ∧ clockFreq / (freq * div) ≤ 65535
    · rw [if_pos h]
      refine ⟨le_refl div, by omega, rfl, h.1, h.2, ?_⟩
      intro e h1 h2
      exact absurd h2 (by omega)
    · rw [if_neg h]
      have hd := ih (div + 1)
      cases hscan : pwmScanFrom freq (div + 1) n with
      | none =>
        rw [hscan] at hd
        intro e he1 he2
        rcases Nat.eq_or_lt_of_le he1 with heq | hlt
        · subst heq; exact fun hok => h hok
        · exact hd e hlt (by omega)
      | some p =>
        rw [hscan] at hd
        obtain ⟨d, w⟩ := p
        obtain ⟨hd1, hd2, hd3, hd4, hd5, hd6⟩ := hd
        refine ⟨by omega, by omega, hd3, hd4, hd5, ?_⟩
        intro e he1 he2
        rcases Nat.eq_or_lt_of_le he1 with heq | hlt
        · subst heq; exact fun hok => h hok
        · exact hd6 e hlt he2

/-- C1: for every requested frequency of at least 1 Hz (covering every
microstep value in {1,2,4,8,16,32} times any step rate),
calculate_pwm_parameters either returns none (whereupon set_speed
raises the unachievable-frequency error) with no divisor in [1,255]
acceptable, or returns the smallest divisor in [1,255] whose period
tick count floor(clockFreq / (freq * divisor)) lies in [1,65535],
together with that tick count; it never returns an out-of-range pair.
At 125 MHz and 2000 Hz it returns divisor 1 and 62500 ticks. -/
theorem C1_pwm_parameters (freq : Nat) (hf : 1 ≤ freq) :
    (match calculate_pwm_parameters freq with
     | some (d, w) =>
         1 ≤ d ∧ d ≤ 255 ∧ w = clockFreq / (freq * d) ∧
         1 ≤ w ∧ w ≤ 65535 ∧ ∀ e, 1 ≤ e → e < d → ¬ divOk freq e
     | none => ∀ e, 1 ≤ e → e ≤ 255 → ¬ divOk freq e) ∧
    calculate_pwm_parameters 2000 = some (1, 62500) := by
  have h := pwmScanFrom_spec freq 255 1
  constructor
  · unfold calculate_pwm_parameters
    cases hc : pwmScanFrom freq 1 255 with
    | none =>
      rw [hc] at h
      intro e he1 he2
      exact h e he1 (by omega)
    | some p =>
      rw [hc] at h
      obtain ⟨d, w⟩ := p
      obtain ⟨h1, h2, h3, h4, h5, h6⟩ := h
      exact ⟨h1, by omega, h3, h4, h5, h6⟩
  · rfl

/-- Witness for C1 at the concrete frequency 2000 Hz. -/
theorem C1_pwm_parameters_witness :
    calculate_pwm_parameters 2000 = some (1, 62500) :=
  (C1_pwm_parameters 2000 (by decide)).2

/-- C2: whenever move_for_time or move_with_variable_speed returns (the
three loop exit paths: duration elapsed, limit switch triggered,
KeyboardInterrupt — all fall through the finally block), the post-call
state has PWM duty 0, the pulse timer deinitialized and the driver
disabled: no energized state leaks. -/
theorem C2_move_cleanup :
    (∀ (env : MoveEnv) (d : Int) (sps duration_ms : Nat)
       (microstep : Option Nat) (s : StepperState),
       (move_for_time env d sps duration_ms microstep s).1.isOk = true →
       (move_for_time env d sps duration_ms microstep s).2.pwmDuty = 0 ∧
       (move_for_time env d sps duration_ms microstep s).2.timerActive
         = false ∧
       (move_for_time env d sps duration_ms microstep s).2.enableVal = 1) ∧
    (∀ (obs : List VsObs) (d : Int) (profile : Nat → Nat → Nat)
       (duration_ms : Nat) (microstep : Option Nat) (s : StepperState),
       (move_with_variable_speed obs d profile duration_ms microstep
           s).1.isOk = true →
       (move_with_variable_speed obs d profile duration_ms microstep
           s).2.pwmDuty = 0 ∧
       (move_with_variable_speed obs d profile duration_ms microstep
           s).2.timerActive = false ∧
       (move_with_variable_speed obs d profile duration_ms microstep
           s).2.enableVal = 1) := by
  constructor
  · intro env d sps duration_ms microstep s
    rcases h0 : microstepPrep microstep s with ⟨r0, s1⟩
    cases r0 with
    | exn e => simp [move_for_time, h0, Res.isOk]
    | ok v =>
      rcases h1 : set_speed sps (set_direction d s1) with ⟨r1, s3⟩
      cases r1 with
      | exn e => simp [move_for_time, h0, h1, Res.isOk]
      | ok w => simp [move_for_time, h0, h1, disable]
  · intro obs d profile duration_ms microstep s
    rcases h0 : microstepPrep microstep s with ⟨r0, s1⟩
    cases r0 with
    | exn e => simp [move_with_variable_speed, h0, Res.isOk]
    | ok v =>
      rcases h1 : vsLoop profile duration_ms obs
          (enable { set_direction d s1 with
                    pulse_count := 0, timerActive := true,
                    timerFreq := 1000 }) with ⟨r1, s6⟩
      cases r1 with
      | exn e => simp [move_with_variable_speed, h0, h1, Res.isOk]
      | ok w => simp [move_with_variable_speed, h0, h1, disable]

/-- Witness for C2: a completed constant-rate move and a completed
profiled move, both from the initial state, end with duty 0, timer off
and driver disabled. -/
theorem C2_move_cleanup_witness :
    ((move_for_time ⟨0, 100, 50⟩ 1 200 1000 (some 16)
        initState).2.pwmDuty = 0 ∧
     (move_for_time ⟨0, 100, 50⟩ 1 200 1000 (some 16)
        initState).2.timerActive = false ∧
     (move_for_time ⟨0, 100, 50⟩ 1 200 1000 (some 16)
        initState).2.enableVal = 1) ∧
    ((move_with_variable_speed [⟨0, 1, false, 10, 20⟩] 1
        (fun _ _ => 200) 1000 none initState).2.pwmDuty = 0 ∧
     (move_with_variable_speed [⟨0, 1, false, 10, 20⟩] 1
        (fun _ _ => 200) 1000 none initState).2.timerActive = false ∧
     (move_with_variable_speed [⟨0, 1, false, 10, 20⟩] 1
        (fun _ _ => 200) 1000 none initState).2.enableVal = 1) :=
  ⟨C2_move_cleanup.1 ⟨0, 100, 50⟩ 1 200 1000 (some 16) initState rfl,
   C2_move_cleanup.2 [⟨0, 1, false, 10, 20⟩] 1 (fun _ _ => 200) 1000
     none initState rfl⟩

/-- The microstep prelude keeps the position and the emitted-pulse
count of the state. -/
theorem microstepPrep_pres (ms : Option Nat) (s : StepperState) :
    (microstepPrep ms s).2.position = s.position ∧
    (microstepPrep ms s).2.stepsEmitted = s.stepsEmitted := by
  cases ms with
  | none => exact ⟨rfl, rfl⟩
  | some m =>
    simp only [microstepPrep, set_microstep_mode]
    cases hm : MICROSTEP_MODES m <;> simp [hm]

/-- The microstep prelude can only raise the invalid-microstep error,
and raising leaves the state untouched. -/
theorem microstepPrep_exn (ms : Option Nat) (s s1 : StepperState)
    (e : StepperError) :
    microstepPrep ms s = (.exn e, s1) →
    e = .invalidMicrostep ∧ s1 = s := by
  cases ms with
  | none => intro h; simp [microstepPrep] at h
  | some m =>
    intro h
    simp only [microstepPrep, set_microstep_mode] at h
    cases hm : MICROSTEP_MODES m <;> simp [hm] at h <;> simp_all

/-- set_speed keeps the position and the emitted-pulse count. -/
theorem set_speed_pres (sps : Nat) (s : StepperState) :
    (set_speed sps s).2.position = s.position ∧
    (set_speed sps s).2.stepsEmitted = s.stepsEmitted := by
  simp only [set_speed]
  cases hc :
      calculate_pwm_parameters (max (sps * s.current_microstep) 10) <;>
    simp [hc]

/-- A raising set_speed raises the unachievable-frequency error for the
adjusted frequency and mutates nothing. -/
theorem set_speed_exn (sps : Nat) (s s1 : StepperState)
    (e : StepperError) :
    set_speed sps s = (.exn e, s1) →
    s1 = s ∧
    e = .unachievableFrequency (max (sps * s.current_microstep) 10) := by
  intro h
  simp only [set_speed] at h
  cases hc :
      calculate_pwm_parameters (max (sps * s.current_microstep) 10) with
  | none =>
    simp [hc] at h
    exact ⟨h.2.symm, h.1.symm⟩
  | some p => simp [hc] at h

/-- The resampling loop never changes the position field. -/
theorem vsLoop_pos (prof : Nat → Nat → Nat) (dur : Nat) :
    ∀ (obs : List VsObs) (s : StepperState),
      (vsLoop prof dur obs s).2.position = s.position := by
  intro obs
  induction obs with
  | nil => intro s; rfl
  | cons o rest ih =>
    intro s
    rw [vsLoop]
    by_cases hi : o.interrupted = true
    · simp [hi]
    · simp only [Bool.not_eq_true] at hi
      rw [hi]
      by_cases hc : o.elapsed < dur ∧ o.limitVal ≠ 0
      · rw [if_neg (by simp), if_pos hc]
        rcases hs : set_speed (prof o.elapsed dur) s with ⟨r, s1⟩
        have hp := set_speed_pres (prof o.elapsed dur) s
        rw [hs] at hp
        cases r with
        | exn e => simpa using hp.1
        | ok v => rw [ih]; simpa using hp.1
      · rw [if_neg (by simp), if_neg hc]

set_option maxRecDepth 10000 in
/-- C3 counterexample: a profiled move whose speed profile is
achievable on the first sample (2000 Hz) and unachievable on the
second (130 MHz, above the 125 MHz clock) raises the
unachievable-frequency error only after 20 step pulses were already
emitted, refuting that the error is always raised before any pulse is
issued. -/
theorem C3_error_after_pulses_cex :
    (move_with_variable_speed
        [⟨0, 1, false, 10, 20⟩, ⟨10, 1, false, 10, 20⟩] 1
        (fun e _ => if e = 0 then 2000 else 130000000) 30 none
        initState).1
      = .exn (.unachievableFrequency 130000000) ∧
    (move_with_variable_speed
        [⟨0, 1, false, 10, 20⟩, ⟨10, 1, false, 10, 20⟩] 1
        (fun e _ => if e = 0 then 2000 else 130000000) 30 none
        initState).2.stepsEmitted = 20 ∧
    ¬ (move_with_variable_speed
        [⟨0, 1, false, 10, 20⟩, ⟨10, 1, false, 10, 20⟩] 1
        (fun e _ => if e = 0 then 2000 else 130000000) 30 none
        initState).2.stepsEmitted = 0 := by
  refine ⟨rfl, rfl, by decide⟩

/-- C3 amended: move_for_time raises the unachievable-frequency error
before any pulse is issued, with the position unchanged.
move_with_variable_speed always leaves the position unchanged when it
raises this error, and an iteration whose frequency sample is
unachievable emits no pulse itself and mutates nothing — but pulses may
already have been emitted by earlier iterations whose samples were
achievable. -/
theorem C3_no_pulse_before_error :
    (∀ (env : MoveEnv) (d : Int) (sps duration_ms : Nat)
       (microstep : Option Nat) (s : StepperState),
       (move_for_time env d sps duration_ms microstep s).1.isUnach
         = true →
       (move_for_time env d sps duration_ms microstep s).2.position
         = s.position ∧
       (move_for_time env d sps duration_ms microstep s).2.stepsEmitted
         = s.stepsEmitted) ∧
    (∀ (obs : List VsObs) (d : Int) (profile : Nat → Nat → Nat)
       (duration_ms : Nat) (microstep : Option Nat) (s : StepperState),
       (move_with_variable_speed obs d profile duration_ms microstep
           s).1.isUnach = true →
       (move_with_variable_speed obs d profile duration_ms microstep
           s).2.position = s.position) ∧
    (∀ (profile : Nat → Nat → Nat) (duration_ms : Nat) (o : VsObs)
       (rest : List VsObs) (s : StepperState),
       o.interrupted = false → o.elapsed < duration_ms →
       o.limitVal ≠ 0 →
       (set_speed (profile o.elapsed duration_ms) s).1.isUnach = true →
       (vsLoop profile duration_ms (o :: rest) s).2 = s) := by
  refine ⟨?_, ?_, ?_⟩
  · intro env d sps duration_ms microstep s h
    rcases h0 : microstepPrep microstep s with ⟨r0, s1⟩
    cases r0 with
    | exn e =>
      obtain ⟨he, hs⟩ := microstepPrep_exn microstep s s1 e h0
      subst he
      simp [move_for_time, h0, Res.isUnach] at h
    | ok v =>
      have hp := microstepPrep_pres microstep s
      rw [h0] at hp
      rcases h1 : set_speed sps (set_direction d s1) with ⟨r1, s3⟩
      cases r1 with
      | exn e =>
        obtain ⟨hs3, he⟩ :=
          set_speed_exn sps (set_direction d s1) s3 e h1
        subst hs3
        simp only [move_for_time, h0, h1]
        exact ⟨hp.1, hp.2⟩
      | ok w =>
        simp [move_for_time, h0, h1, Res.isUnach] at h
  · intro obs d profile duration_ms microstep s h
    rcases h0 : microstepPrep microstep s with ⟨r0, s1⟩
    cases r0 with
    | exn e =>
      obtain ⟨he, hs⟩ := microstepPrep_exn microstep s s1 e h0
      subst he
      simp [move_with_variable_speed, h0, Res.isUnach] at h
    | ok v =>
      have hp := microstepPrep_pres microstep s
      rw [h0] at hp
      rcases h1 : vsLoop profile duration_ms obs
          (enable { set_direction d s1 with
                    pulse_count := 0, timerActive := true,
                    timerFreq := 1000 }) with ⟨r1, s6⟩
      have h6 := vsLoop_pos profile duration_ms obs
          (enable { set_direction d s1 with
                    pulse_count := 0, timerActive := true,
                    timerFreq := 1000 })
      rw [h1] at h6
      cases r1 with
      | exn e =>
        simp only [move_with_variable_speed, h0, h1, disable]
        rw [h6]
        simpa [set_direction, enable] using hp.1
      | ok w =>
        simp [move_with_variable_speed, h0, h1, Res.isUnach] at h
  · intro profile duration_ms o rest s hi hel hl h
    rw [vsLoop, hi]
    rw [if_neg (by simp), if_pos ⟨hel, hl⟩]
    rcases hs : set_speed (profile o.elapsed duration_ms) s with ⟨r, s1⟩
    rw [hs] at h
    cases r with
    | exn e =>
      obtain ⟨hs1, he⟩ :=
        set_speed_exn (profile o.elapsed duration_ms) s s1 e hs
      simp [hs1]
    | ok v => simp [Res.isUnach] at h

set_option maxRecDepth 10000 in
/-- Witness for C3: a constant-rate move at 130 MHz fails with the
position and the pulse output untouched; the same holds for the first
iteration of a profiled move. -/
theorem C3_no_pulse_before_error_witness :
    ((move_for_time ⟨0, 0, 0⟩ 1 130000000 1000 none
        initState).2.position = initState.position ∧
     (move_for_time ⟨0, 0, 0⟩ 1 130000000 1000 none
        initState).2.stepsEmitted = initState.stepsEmitted) ∧
    (move_with_variable_speed [⟨0, 1, false, 10, 20⟩] 1
        (fun _ _ => 130000000) 1000 none initState).2.position
      = initState.position ∧
    (vsLoop (fun _ _ => 130000000) 1000 [⟨0, 1, false, 10, 20⟩]
        initState).2 = initState :=
  ⟨C3_no_pulse_before_error.1 ⟨0, 0, 0⟩ 1 130000000 1000 none
     initState rfl,
   C3_no_pulse_before_error.2.1 [⟨0, 1, false, 10, 20⟩] 1
     (fun _ _ => 130000000) 1000 none initState rfl,
   C3_no_pulse_before_error.2.2 (fun _ _ => 130000000) 1000
     ⟨0, 1, false, 10, 20⟩ [] initState rfl (by decide) (by decide) rfl⟩

/-- The home switch reads 1 exactly while the carriage is strictly on
the positive side of the trigger edge. -/
theorem home_switch_one (p : Int) : home_switch_value p = 1 ↔ 0 < p := by
  unfold home_switch_value; split <;> omega

/-- The home switch reads 0 exactly at or past the trigger edge. -/
theorem home_switch_zero (p : Int) : home_switch_value p = 0 ↔ p ≤ 0 := by
  unfold home_switch_value; split <;> omega

/-- Bounded characterization of the first homing loop. -/
theorem seekHome_aux :
    ∀ (n : Nat) (p : Int), p ≤ (n : Int) →
      seekHome p = if 0 < p then 0 else p := by
  intro n
  induction n with
  | zero =>
    intro p hp
    rw [seekHome, dif_neg (by rw [home_switch_one]; omega)]
    rw [if_neg (by omega)]
  | succ k ih =>
    intro p hp
    rw [seekHome]
    by_cases h : home_switch_value p = 1
    · have hp0 : 0 < p := (home_switch_one p).mp h
      rw [dif_pos h]
      have := ih (step_left p) (by simp [step_left]; omega)
      rw [this, if_pos hp0]
      simp only [step_left]
      split <;> omega
    · have hp0 : ¬ 0 < p := fun hc => h ((home_switch_one p).mpr hc)
      rw [dif_neg h, if_neg hp0]

/-- Characterization of the first homing loop: it steps toward home
until the switch triggers; from a nonpositive start it does not move. -/
theorem seekHome_eq (p : Int) : seekHome p = if 0 < p then 0 else p :=
  seekHome_aux p.toNat p (Int.self_le_toNat p)

/-- Bounded characterization of the second homing loop. -/
theorem clearHome_aux :
    ∀ (n : Nat) (p : Int), 1 - p ≤ (n : Int) →
      clearHome p = if p ≤ 0 then 1 else p := by
  intro n
  induction n with
  | zero =>
    intro p hp
    rw [clearHome, dif_neg (by rw [home_switch_zero]; omega)]
    rw [if_neg (by omega)]
  | succ k ih =>
    intro p hp
    rw [clearHome]
    by_cases h : home_switch_value p = 0
    · have hp0 : p ≤ 0 := (home_switch_zero p).mp h
      rw [dif_pos h]
      have := ih (step_right p) (by simp [step_right]; omega)
      rw [this, if_pos hp0]
      simp only [step_right]
      split <;> omega
    · have hp0 : ¬ p ≤ 0 := fun hc => h ((home_switch_zero p).mpr hc)
      rw [dif_neg h, if_neg hp0]

/-- Characterization of the second homing loop: it steps away from home
until the switch clears, landing one step past the edge. -/
theorem clearHome_eq (p : Int) : clearHome p = if p ≤ 0 then 1 else p :=
  clearHome_aux (1 - p).toNat p (Int.self_le_toNat (1 - p))

/-- Bounded characterization of the third homing loop. -/
theorem reapproachHome_aux :
    ∀ (n : Nat) (p : Int), p ≤ (n : Int) →
      reapproachHome p = if 0 < p then 0 else p := by
  intro n
  induction n with
  | zero =>
    intro p hp
    rw [reapproachHome, dif_neg (by rw [home_switch_one]; omega)]
    rw [if_neg (by omega)]
  | succ k ih =>
    intro p hp
    rw [reapproachHome]
    by_cases h : home_switch_value p = 1
    · have hp0 : 0 < p := (home_switch_one p).mp h
      rw [dif_pos h]
      have := ih (step_left p) (by simp [step_left]; omega)
      rw [this, if_pos hp0]
      simp only [step_left]
      split <;> omega
    · have hp0 : ¬ 0 < p := fun hc => h ((home_switch_one p).mpr hc)
      rw [dif_neg h, if_neg hp0]

/-- Characterization of the third homing loop. -/
theorem reapproachHome_eq (p : Int) :
    reapproachHome p = if 0 < p then 0 else p :=
  reapproachHome_aux p.toNat p (Int.self_le_toNat p)

/-- C4: from every starting state the homing sequence terminates (the
three loops are total functions), runs the three phases in order — seek
home, clear the switch, re-approach it — and ends at the trigger edge
with the axis position counter reset to 0 and the homing guard
cleared. -/
theorem C4_home_terminates_at_zero (c : CartState) :
    (home c).phys = reapproachHome (clearHome (seekHome c.phys)) ∧
    (home c).phys = 0 ∧
    (home c).axisPos = 0 ∧
    (home c).is_homing = false := by
  refine ⟨rfl, ?_, rfl, rfl⟩
  show reapproachHome (clearHome (seekHome c.phys)) = 0
  have h1 : seekHome c.phys ≤ 0 := by
    rw [seekHome_eq]; split <;> omega
  have h2 : clearHome (seekHome c.phys) = 1 := by
    rw [clearHome_eq, if_pos h1]
  rw [h2, reapproachHome_eq]
  rfl

/-- C5: on any switch edge, if the homing guard is clear and the switch
reads 0 (active low, triggered) the handler synchronously forces the
stepper into emergency stop and sets the cancellation signal; while the
homing guard is set the handler changes nothing at all. -/
theorem C5_switch_handler :
    (∀ (c : CartState) (v : Nat),
       c.is_homing = false → v = 0 →
       switch_handler v c
         = { emergency_stop c with switch_activated := true } ∧
       (switch_handler v c).estopped = true ∧
       (switch_handler v c).switch_activated = true) ∧
    (∀ (c : CartState) (v : Nat),
       c.is_homing = true → switch_handler v c = c) := by
  constructor
  · intro c v h1 h2
    subst h2
    refine ⟨?_, ?_, ?_⟩ <;> simp [switch_handler, h1, emergency_stop]
  · intro c v h
    simp [switch_handler, h]

/-- Witness for C5: with the guard clear a triggered edge stops and
signals; with the guard set the same edge is ignored. -/
theorem C5_switch_handler_witness :
    (switch_handler 0 initCart).estopped = true ∧
    (switch_handler 0 initCart).switch_activated = true ∧
    switch_handler 0 { initCart with is_homing := true }
      = { initCart with is_homing := true } :=
  ⟨(C5_switch_handler.1 initCart 0 rfl rfl).2.1,
   (C5_switch_handler.1 initCart 0 rfl rfl).2.2,
   C5_switch_handler.2 { initCart with is_homing := true } 0 rfl⟩

set_option maxRecDepth 10000 in
/-- C6 counterexample: a 16-microstep move whose independent counter
reaches 320 returns 320/16 = 20 — the pulse count divided by the
microstep resolution, not the pulse count itself — and advances the
position by direction times that return value (to 20), not by
direction times the return value divided by the microstep resolution
(which would give 5/4): both halves of the claim fail at this input. -/
theorem C6_return_value_cex :
    (move_for_time ⟨0, 320, 320⟩ 1 100 2000 (some 16) initState).1
      = .ok (((320 : Nat) : ℚ) / ((16 : Nat) : ℚ)) ∧
    (move_for_time ⟨0, 320, 320⟩ 1 100 2000 (some 16)
        initState).2.pulse_count = 320 ∧
    ¬ ((((320 : Nat) : ℚ) / ((16 : Nat) : ℚ)) = ((320 : Nat) : ℚ)) ∧
    (move_for_time ⟨0, 320, 320⟩ 1 100 2000 (some 16)
        initState).2.position
      = initState.position
        + ((1 : Int) : ℚ) * (((320 : Nat) : ℚ) / ((16 : Nat) : ℚ)) ∧
    ¬ (initState.position
          + ((1 : Int) : ℚ) * (((320 : Nat) : ℚ) / ((16 : Nat) : ℚ))
        = initState.position
          + (((1 : Int) : ℚ) * (((320 : Nat) : ℚ) / ((16 : Nat) : ℚ)))
            / ((16 : Nat) : ℚ)) := by
  refine ⟨rfl, by decide, by norm_num, rfl, ?_⟩
  simp only [initState]
  norm_num

/-- C6 amended: both moves return the pulse counter reading divided by
the microstep resolution (full-step units), a value derived from the
independent counter rather than the requested step count, and advance
the position by direction times that return value. -/
theorem C6_return_and_position :
    (∀ (env : MoveEnv) (d : Int) (sps duration_ms : Nat)
       (microstep : Option Nat) (s : StepperState) (r : ℚ),
       (move_for_time env d sps duration_ms microstep s).1 = .ok r →
       r = ((move_for_time env d sps duration_ms microstep
              s).2.pulse_count : ℚ)
           / ((move_for_time env d sps duration_ms microstep
                s).2.current_microstep : ℚ) ∧
       (move_for_time env d sps duration_ms microstep s).2.position
         = s.position
           + ((move_for_time env d sps duration_ms microstep
                s).2.direction : ℚ) * r) ∧
    (∀ (obs : List VsObs) (d : Int) (profile : Nat → Nat → Nat)
       (duration_ms : Nat) (microstep : Option Nat) (s : StepperState)
       (r : ℚ),
       (move_with_variable_speed obs d profile duration_ms microstep
           s).1 = .ok r →
       r = ((move_with_variable_speed obs d profile duration_ms
              microstep s).2.pulse_count : ℚ)
           / ((move_with_variable_speed obs d profile duration_ms
                microstep s).2.current_microstep : ℚ) ∧
       (move_with_variable_speed obs d profile duration_ms microstep
           s).2.position
         = s.position
           + ((move_with_variable_speed obs d profile duration_ms
                microstep s).2.direction : ℚ) * r) := by
  constructor
  · intro env d sps duration_ms microstep s r h
    rcases h0 : microstepPrep microstep s with ⟨r0, s1⟩
    cases r0 with
    | exn e => simp [move_for_time, h0] at h
    | ok v =>
      have hps1 : s1.position = s.position := by
        have := microstepPrep_pres microstep s
        rw [h0] at this; exact this.1
      rcases h1 : set_speed sps (set_direction d s1) with ⟨r1, s3⟩
      cases r1 with
      | exn e => simp [move_for_time, h0, h1] at h
      | ok w =>
        have hps3 : s3.position = s.position := by
          have h2 := set_speed_pres sps (set_direction d s1)
          rw [h1] at h2
          have h3 : (set_direction d s1).position = s1.position := by
            simp [set_direction]
          simpa [h3, hps1] using h2.1
        simp only [move_for_time, h0, h1] at h ⊢
        simp only [Res.ok.injEq] at h
        subst h
        constructor
        · simp [disable, enable]
        · simp [disable, enable, hps3]
  · intro obs d profile duration_ms microstep s r h
    rcases h0 : microstepPrep microstep s with ⟨r0, s1⟩
    cases r0 with
    | exn e => simp [move_with_variable_speed, h0] at h
    | ok v =>
      have hps1 : s1.position = s.position := by
        have := microstepPrep_pres microstep s
        rw [h0] at this; exact this.1
      rcases h1 : vsLoop profile duration_ms obs
          (enable { set_direction d s1 with
                    pulse_count := 0, timerActive := true,
                    timerFreq := 1000 }) with ⟨r1, s6⟩
      have h6 := vsLoop_pos profile duration_ms obs
          (enable { set_direction d s1 with
                    pulse_count := 0, timerActive := true,
                    timerFreq := 1000 })
      rw [h1] at h6
      have hps6 : s6.position = s.position := by
        rw [h6]; simp [enable, set_direction, hps1]
      cases r1 with
      | exn e => simp [move_with_variable_speed, h0, h1] at h
      | ok w =>
        simp only [move_with_variable_speed, h0, h1] at h ⊢
        simp only [Res.ok.injEq] at h
        subst h
        constructor
        · simp [disable]
        · simp [disable, hps6]

set_option maxRecDepth 10000 in
/-- Witness for C6: the counterexample move returns 320/16 and moves
the position by direction times that value; a profiled move counting
10 pulses at full step returns 10/1 and moves by direction times
that. -/
theorem C6_return_and_position_witness :
    ((((320 : Nat) : ℚ) / ((16 : Nat) : ℚ))
       = ((move_for_time ⟨0, 320, 320⟩ 1 100 2000 (some 16)
             initState).2.pulse_count : ℚ)
         / ((move_for_time ⟨0, 320, 320⟩ 1 100 2000 (some 16)
              initState).2.current_microstep : ℚ) ∧
     (move_for_time ⟨0, 320, 320⟩ 1 100 2000 (some 16)
         initState).2.position
       = initState.position
         + ((move_for_time ⟨0, 320, 320⟩ 1 100 2000 (some 16)
              initState).2.direction : ℚ)
           * (((320 : Nat) : ℚ) / ((16 : Nat) : ℚ))) ∧
    ((((10 : Nat) : ℚ) / ((1 : Nat) : ℚ))
       = ((move_with_variable_speed [⟨0, 1, false, 10, 20⟩] 1
             (fun _ _ => 200) 1000 none initState).2.pulse_count : ℚ)
         / ((move_with_variable_speed [⟨0, 1, false, 10, 20⟩] 1
              (fun _ _ => 200) 1000 none
              initState).2.current_microstep : ℚ) ∧
     (move_with_variable_speed [⟨0, 1, false, 10, 20⟩] 1
         (fun _ _ => 200) 1000 none initState).2.position
       = initState.position
         + ((move_with_variable_speed [⟨0, 1, false, 10, 20⟩] 1
              (fun _ _ => 200) 1000 none initState).2.direction : ℚ)
           * (((10 : Nat) : ℚ) / ((1 : Nat) : ℚ))) :=
  ⟨C6_return_and_position.1 ⟨0, 320, 320⟩ 1 100 2000 (some 16)
     initState (((320 : Nat) : ℚ) / ((16 : Nat) : ℚ)) rfl,
   C6_return_and_position.2 [⟨0, 1, false, 10, 20⟩] 1 (fun _ _ => 200)
     1000 none initState (((10 : Nat) : ℚ) / ((1 : Nat) : ℚ)) rfl⟩

/-- C7 counterexample: set_microstep_mode performs no busy check — in a
mid-move state (duty nonzero, timer running, driver enabled) a valid
microstep value succeeds and changes the resolution instead of failing
with an axis-busy error. -/
theorem C7_no_busy_check_cex :
    midMoveState.pwmDuty = 32768 ∧
    midMoveState.timerActive = true ∧
    midMoveState.enableVal = 0 ∧
    (set_microstep_mode 2 midMoveState).1 = .ok () ∧
    (set_microstep_mode 2 midMoveState).2.current_microstep = 2 :=
  ⟨rfl, rfl, rfl, rfl, rfl⟩

/-- C7 amended: set_microstep_mode fails with the invalid-microstep
error for every value outside {1,2,4,8,16,32}, leaving the state (in
particular the current resolution) unchanged; for a value inside the
set it succeeds unconditionally — the code has no busy check, so it
also succeeds while a move is in progress. -/
theorem C7_set_microstep_mode :
    (∀ (m : Nat) (s : StepperState),
       ¬ (m = 1 ∨ m = 2 ∨ m = 4 ∨ m = 8 ∨ m = 16 ∨ m = 32) →
       set_microstep_mode m s = (.exn .invalidMicrostep, s)) ∧
    (∀ (m : Nat) (s : StepperState),
       (m = 1 ∨ m = 2 ∨ m = 4 ∨ m = 8 ∨ m = 16 ∨ m = 32) →
       (set_microstep_mode m s).1 = .ok () ∧
       (set_microstep_mode m s).2.current_microstep = m) := by
  constructor
  · intro m s hm
    push_neg at hm
    obtain ⟨h1, h2, h3, h4, h5, h6⟩ := hm
    simp [set_microstep_mode, MICROSTEP_MODES, h1, h2, h3, h4, h5, h6]
  · intro m s hm
    rcases hm with h | h | h | h | h | h <;> subst h <;>
      exact ⟨rfl, rfl⟩

/-- Witness for C7: microstep 7 is rejected with the state untouched;
microstep 4 is accepted even in a mid-move state. -/
theorem C7_set_microstep_mode_witness :
    set_microstep_mode 7 initState
      = (.exn .invalidMicrostep, initState) ∧
    (set_microstep_mode 4 midMoveState).1 = .ok () ∧
    (set_microstep_mode 4 midMoveState).2.current_microstep = 4 :=
  ⟨C7_set_microstep_mode.1 7 initState (by decide),
   (C7_set_microstep_mode.2 4 midMoveState (by decide)).1,
   (C7_set_microstep_mode.2 4 midMoveState (by decide)).2⟩

/-- C8 counterexample: from the reachable state produced by one
play_note(0, left) call on the freshly constructed cart, calling
play_note(0, left) twice more issues zero actuator commands in total,
not exactly one — the "exactly one command" half of the claim fails
when the actuator is already engaged at the target. -/
theorem C8_double_play_cex :
    (play_note 0 true initCart).2.2 = [Command.setAngle 0 (-45)] ∧
    (play_note 0 true ((play_note 0 true initCart).2.1)).2.2 = [] ∧
    (play_note 0 true
        ((play_note 0 true
            ((play_note 0 true initCart).2.1)).2.1)).2.2 = [] ∧
    ¬ (((play_note 0 true ((play_note 0 true initCart).2.1)).2.2
         ++ (play_note 0 true
              ((play_note 0 true
                  ((play_note 0 true initCart).2.1)).2.1)).2.2).length
        = 1) := by
  refine ⟨rfl, rfl, rfl, by decide⟩

/-- C8 amended: for every valid index and side, two consecutive
play_note calls issue at most one actuator command and the second call
is always a no-op (no command, no state change); when the current
engagement differs from the target — in particular from the
freshly-initialized centered state — the first call issues exactly the
one set_angle command for the orientation-and-side angle and records
the target engagement. -/
theorem C8_play_note_idempotent :
    ∀ (i : Int) (left : Bool) (c : CartState),
      c.servo_states.length = 7 → 0 ≤ i → i < 7 →
      (play_note i left ((play_note i left c).2.1)).2.2 = [] ∧
      (play_note i left ((play_note i left c).2.1)).2.1
        = (play_note i left c).2.1 ∧
      (play_note i left c).2.2.length ≤ 1 ∧
      (c.servo_states.getD i.toNat 0 ≠ (playTarget i.toNat left).1 →
        (play_note i left c).2.2
          = [Command.setAngle i.toNat (playTarget i.toNat left).2] ∧
        ((play_note i left c).2.1).servo_states.getD i.toNat 0
          = (playTarget i.toNat left).1) := by
  intro i left c hlen h0 h7
  have hrange : ¬ (i < 0 ∨ 7 ≤ i) := by omega
  have hsame : ∀ c2 : CartState,
      c2.servo_states.getD i.toNat 0 = (playTarget i.toNat left).1 →
      play_note i left c2 = (.ok (), c2, []) := by
    intro c2 hc
    simp only [play_note]
    rw [if_neg hrange, if_neg (not_not_intro hc)]
  by_cases hcur :
      c.servo_states.getD i.toNat 0 = (playTarget i.toNat left).1
  · have h1 := hsame c hcur
    refine ⟨?_, ?_, ?_, fun hne => absurd hcur hne⟩
    · rw [h1]
      show (play_note i left c).2.2 = []
      rw [h1]
    · rw [h1]
      show (play_note i left c).2.1 = c
      rw [h1]
    · rw [h1]
      simp
  · have h1 : play_note i left c
        = (.ok (), { c with servo_states :=
            c.servo_states.set i.toNat (playTarget i.toNat left).1 },
           [Command.setAngle i.toNat (playTarget i.toNat left).2]) := by
      simp only [play_note]
      rw [if_neg hrange, if_pos hcur]
    have hget : ((play_note i left c).2.1).servo_states.getD i.toNat 0
        = (playTarget i.toNat left).1 := by
      rw [h1]
      show (c.servo_states.set i.toNat
              (playTarget i.toNat left).1).getD i.toNat 0
        = (playTarget i.toNat left).1
      rw [List.getD_eq_getElem?_getD, List.getElem?_set_self]
      · rfl
      · omega
    have h2 := hsame ((play_note i left c).2.1) hget
    refine ⟨?_, ?_, ?_, fun hne => ⟨?_, hget⟩⟩
    · rw [h2]
    · rw [h2]
    · rw [h1]
      simp
    · rw [h1]

/-- Witness for C8 at index 0, left side, on the freshly constructed
cart. -/
theorem C8_play_note_idempotent_witness :
    (play_note 0 true ((play_note 0 true initCart).2.1)).2.2 = [] ∧
    (play_note 0 true ((play_note 0 true initCart).2.1)).2.1
      = (play_note 0 true initCart).2.1 ∧
    (play_note 0 true initCart).2.2.length ≤ 1 ∧
    (initCart.servo_states.getD (0 : Int).toNat 0
        ≠ (playTarget (0 : Int).toNat true).1 →
      (play_note 0 true initCart).2.2
        = [Command.setAngle (0 : Int).toNat
            (playTarget (0 : Int).toNat true).2] ∧
      ((play_note 0 true initCart).2.1).servo_states.getD
          (0 : Int).toNat 0
        = (playTarget (0 : Int).toNat true).1) :=
  C8_play_note_idempotent 0 true initCart (by decide) (by decide)
    (by decide)

/-- C9: for every index outside [0,6], play_note and release_note fail
with the invalid-servo-index ValueError before any hardware action: no
actuator command is issued and the cart state is returned unchanged. -/
theorem C9_index_validation :
    ∀ (i : Int) (left : Bool) (c : CartState),
      i < 0 ∨ 7 ≤ i →
      play_note i left c = (.exn .invalidServoIndex, c, []) ∧
      release_note i c = (.exn .invalidServoIndex, c, []) := by
  intro i left c h
  constructor
  · rw [play_note, if_pos h]
  · rw [release_note, if_pos h]

/-- Witness for C9 at index 7 on a 7-actuator cart. -/
theorem C9_index_validation_witness :
    play_note 7 true initCart = (.exn .invalidServoIndex, initCart, []) ∧
    release_note 7 initCart = (.exn .invalidServoIndex, initCart, []) :=
  C9_index_validation 7 true initCart (by decide)

/-- C10: get_servo_key_type performs no index validation, unlike
play_note: for -7 <= i <= -1 it returns the key class at position 7+i
through Python negative indexing (where play_note rejects the same
index with the validation error), and for i >= 7 or i < -7 it raises
the generic IndexError, not the invalid-servo-index ValueError. -/
theorem C10_get_servo_key_type_no_validation :
    ∀ i : Int,
      (-7 ≤ i ∧ i ≤ -1 →
        get_servo_key_type i
          = .ok (servo_key_types.getD (7 + i).toNat 'w') ∧
        (play_note i true initCart).1 = .exn .invalidServoIndex) ∧
      (7 ≤ i ∨ i < -7 →
        get_servo_key_type i = .exn .indexError) := by
  intro i
  have hlen : (servo_key_types.length : Int) = 7 := rfl
  constructor
  · rintro ⟨h1, h2⟩
    constructor
    · rw [get_servo_key_type,
        if_neg (by rw [hlen]; omega :
          ¬ (0 ≤ i ∧ i < (servo_key_types.length : Int))),
        if_pos (by rw [hlen]; constructor <;> omega :
          -(servo_key_types.length : Int) ≤ i ∧ i < 0)]
      rw [hlen]
    · rw [play_note, if_pos (by omega : i < 0 ∨ 7 ≤ i)]
  · intro h
    rw [get_servo_key_type,
      if_neg (by rw [hlen]; omega :
        ¬ (0 ≤ i ∧ i < (servo_key_types.length : Int))),
      if_neg (by rw [hlen]; omega :
        ¬ (-(servo_key_types.length : Int) ≤ i ∧ i < 0))]

/-- Witness for C10 at indices -3 and 7. -/
theorem C10_get_servo_key_type_witness :
    get_servo_key_type (-3)
      = .ok (servo_key_types.getD (7 + (-3 : Int)).toNat 'w') ∧
    (play_note (-3) true initCart).1 = .exn .invalidServoIndex ∧
    get_servo_key_type 7 = .exn .indexError :=
  ⟨((C10_get_servo_key_type_no_validation (-3)).1
      ⟨by decide, by decide⟩).1,
   ((C10_get_servo_key_type_no_validation (-3)).1
      ⟨by decide, by decide⟩).2,
   (C10_get_servo_key_type_no_validation 7).2 (by decide)⟩

end Cumbiatron
